import Mathlib

/-!
Shallow embedding of the token-lifecycle and API-client core of `bc4.py`
(a Basecamp command-line client), together with theorems checking the
natural-language specification against it.

Modelling conventions:
* Network I/O is modelled by oracle parameters: a token-endpoint exchange is
  an `Except Nat TokenData` (`.error s` = a request that failed
  `raise_for_status` with HTTP status `s`, or a transport failure), a page
  fetch is a function from page number to response.
* Observable side effects are threaded through a `Trace`: the number of HTTP
  requests issued and the list of credentials persisted by `save_token`,
  in order.
* Python exceptions are `PyError` values returned in `Except`.
* JSON dictionaries are structures of `Option` fields (`none` = key absent).
* Unix times and durations are `Int` (Python ints are unbounded).
-/

namespace BC4

/-! ### String helpers

Python's substring test (`sep in s`) and `str.split(sep)` are modelled on
character lists with structural recursion (fuel = length of the list), so
that everything evaluates inside the kernel. -/

/-- `hasInfixList pat l` is true iff `pat` occurs contiguously in `l`
(Python `pat in s` for strings). -/
def hasInfixList (pat : List Char) : List Char → Bool
  | [] => pat.isEmpty
  | c :: cs => pat.isPrefixOf (c :: cs) || hasInfixList pat cs

/-- Python `pat in s` on strings. -/
def containsSubstr (s pat : String) : Bool :=
  hasInfixList pat.toList s.toList

/-- Worker for `splitOnStr`: splits at each leftmost, non-overlapping
occurrence of `sep` (Python `str.split(sep)` with a non-empty separator).
`acc` holds the current segment reversed; `fuel` bounds recursion depth
(the length of the remaining list always suffices). -/
def splitChars (sep : List Char) : Nat → List Char → List Char → List (List Char)
  | _, [], acc => [acc.reverse]
  | 0, l, acc => [acc.reverse ++ l]
  | fuel + 1, c :: cs, acc =>
    if sep.isPrefixOf (c :: cs) then
      acc.reverse :: splitChars sep fuel (List.drop (sep.length - 1) cs) []
    else
      splitChars sep fuel cs (c :: acc)

/-- Python `s.split(sep)` for a non-empty separator `sep`. -/
def splitOnStr (s sep : String) : List String :=
  (splitChars sep.toList s.toList.length s.toList []).map String.mk

/-! ### Errors -/

/-- The Python exceptions raised by the embedded code, by exception type:
`ValueError msg`, `KeyError key`, and `requests` HTTP errors carrying the
status (`response.raise_for_status()` or a transport failure).  The spec's
`AuthError` / `ApiError` / `ResourceNotFoundError` taxonomy maps onto these
by the distinct `ValueError` messages and raise sites. -/
inductive PyError where
  | valueError (msg : String)
  | keyError (key : String)
  | httpError (status : Nat)
deriving DecidableEq, Repr

/-! ### Data model -/

/-- A token-endpoint JSON payload / the persisted credential record.
`none` models an absent key. -/
structure TokenData where
  access_token : Option String
  refresh_token : Option String
  obtained_at : Option Int
  expires_in : Option Int
deriving DecidableEq, Repr

/-- Observable effects: HTTP requests issued and credentials persisted by
`save_token`, in order. -/
structure Trace where
  requests : Nat
  saved : List TokenData
deriving DecidableEq, Repr

/-! ### BasecampAuth (token lifecycle)

The `client_id`/`client_secret`/`redirect_uri` attributes only feed the
request bodies of the oracles, so the methods are modelled as plain
functions.  `int(time.time())` is the parameter `now`. -/

/-- Python `str.strip()` (whitespace from both ends), on character lists so
it evaluates inside the kernel. -/
def stripChars (l : List Char) : List Char :=
  ((l.dropWhile Char.isWhitespace).reverse.dropWhile Char.isWhitespace).reverse

/-- Python `s.strip()`. -/
def stripStr (s : String) : String :=
  String.mk (stripChars s.toList)

/-- The literal `"?code="` marker searched for in the pasted login input. -/
def qcodeMarker : String := "?code="

/-- Authorization-code extraction inside `BasecampAuth.login`
(bc4.py lines 255-257): if the pasted input contains `"?code="`, take the
segment after the first occurrence (`split("?code=")[1]`) and truncate it
at the first `"&"` (`split("&")[0]`); otherwise use the input as-is. -/
def extract_auth_code (code_input : String) : String :=
  if containsSubstr code_input qcodeMarker then
    let afterCode := (splitOnStr code_input qcodeMarker).getD 1 ""
    (splitOnStr afterCode "&").getD 0 ""
  else
    code_input

/-- `BasecampAuth.login` (bc4.py lines 233-283), from the point the pasted
input is read.  `tokenResp` is the token-endpoint exchange oracle.  The
returned credential is the decoded response with `obtained_at` overwritten
by `now`; it is persisted via `save_token`. -/
def login (now : Int) (code_input : String) (tokenResp : Except Nat TokenData)
    (tr : Trace) : Except PyError TokenData × Trace :=
  let auth_code := extract_auth_code (stripStr code_input)
  if auth_code = "" then
    (.error (.valueError "No authorization code entered"), tr)
  else
    let tr1 : Trace := { tr with requests := tr.requests + 1 }
    match tokenResp with
    | .error s => (.error (.httpError s), tr1)
    | .ok resp =>
      let token_data : TokenData := { resp with obtained_at := some now }
      (.ok token_data, { tr1 with saved := tr1.saved ++ [token_data] })

/-- `BasecampAuth.refresh_token` (bc4.py lines 285-309).  Raises if the
stored credential has no refresh token; otherwise exchanges at the token
endpoint, overwrites `obtained_at` with `now`, carries the prior refresh
token forward when the response omits one, persists and returns. -/
def refresh_token (now : Int) (tokenResp : Except Nat TokenData)
    (token_data : TokenData) (tr : Trace) : Except PyError TokenData × Trace :=
  match token_data.refresh_token with
  | none => (.error (.valueError "No refresh token available"), tr)
  | some _ =>
    let tr1 : Trace := { tr with requests := tr.requests + 1 }
    match tokenResp with
    | .error s => (.error (.httpError s), tr1)
    | .ok resp =>
      let stamped : TokenData := { resp with obtained_at := some now }
      let new_token_data : TokenData :=
        if stamped.refresh_token.isNone && token_data.refresh_token.isSome then
          { stamped with refresh_token := token_data.refresh_token }
        else
          stamped
      (.ok new_token_data, { tr1 with saved := tr1.saved ++ [new_token_data] })

/-- The staleness test of `BasecampAuth.get_valid_token` (bc4.py line 341):
`(current_time - obtained_at) > (expires_in - 300)`, with
`token_data.get('obtained_at', 0)` and `token_data.get('expires_in', 7200)`. -/
def is_stale (now : Int) (token_data : TokenData) : Bool :=
  decide (now - token_data.obtained_at.getD 0 > token_data.expires_in.getD 7200 - 300)

/-- `BasecampAuth.get_valid_token` (bc4.py lines 329-349).  `stored` is the
result of `load_token()` (`none` = no file / unreadable file).  A stale
credential is refreshed; a failed refresh is swallowed into `none`. -/
def get_valid_token (now : Int) (stored : Option TokenData)
    (tokenResp : Except Nat TokenData) (tr : Trace) : Option TokenData × Trace :=
  match stored with
  | none => (none, tr)
  | some token_data =>
    if is_stale now token_data then
      match refresh_token now tokenResp token_data tr with
      | (.ok new_td, tr1) => (some new_td, tr1)
      | (.error _, tr1) => (none, tr1)
    else
      (some token_data, tr)

/-! ### BasecampAPI (resource client)

Each request oracle stands for the HTTP response the server would give:
`Except Nat β` with `.error s` meaning `raise_for_status()` raised with
status `s` (or the transport failed).  Every method evaluates the `headers`
property while building the request keyword arguments, before any request
is issued. -/

/-- A dock entry of a project (`dock_item.get('name')`,
`dock_item.get('id')`). -/
structure DockItem where
  name : Option String
  id : Option Int
deriving DecidableEq, Repr

/-- The slice of a project JSON payload the embedded methods read:
the optional `dock` list (`'dock' in project`). -/
structure Project where
  dock : Option (List DockItem)
deriving DecidableEq, Repr

/-- One collection-endpoint response: the decoded JSON body and the value
of the `Link` response header (`response.headers.get('Link', '')`). -/
structure PageResponse (α : Type) where
  body : List α
  link : String
deriving Repr

/-- The fixed request headers built by `BasecampAPI.headers`. -/
structure Headers where
  authorization : String
  contentType : String
  userAgent : String
deriving DecidableEq, Repr

/-- `BasecampAPI.__init__` (bc4.py lines 54-57): stores the credential
(possibly absent) without validation.  The base URLs are constants and not
modelled.  Python's truthiness check in `headers` treats an empty dict like
`None`; absence is modelled by `none`. -/
structure BasecampAPI where
  token_data : Option TokenData
deriving DecidableEq, Repr

/-- The `BasecampAPI.headers` property (bc4.py lines 59-69): raises
`ValueError` when no credential is stored, otherwise builds the bearer
authorization header from `access_token` (a missing key would raise
`KeyError`). -/
def BasecampAPI.headers (api : BasecampAPI) : Except PyError Headers :=
  match api.token_data with
  | none => .error (.valueError "No authentication token available")
  | some td =>
    match td.access_token with
    | none => .error (.keyError "access_token")
    | some tok =>
      .ok { authorization := "Bearer " ++ tok,
            contentType := "application/json",
            userAgent := "Basecamp4 CLI Tool" }

/-- `BasecampAPI.get_project` (bc4.py lines 108-113): single GET with the
auth headers, `raise_for_status`, decode JSON. -/
def BasecampAPI.get_project (api : BasecampAPI) (resp : Except Nat Project)
    (tr : Trace) : Except PyError Project × Trace :=
  match api.headers with
  | .error e => (.error e, tr)
  | .ok _ =>
    let tr1 : Trace := { tr with requests := tr.requests + 1 }
    match resp with
    | .error s => (.error (.httpError s), tr1)
    | .ok p => (.ok p, tr1)

/-- `BasecampAPI.get_todoset` (bc4.py lines 115-125): fetches the project
(fresh on every call), scans its dock for the first entry named
`"todoset"`, returns that entry's id; raises `ValueError` when the dock is
absent or no entry matches. -/
def BasecampAPI.get_todoset (api : BasecampAPI) (resp : Except Nat Project)
    (tr : Trace) : Except PyError (Option Int) × Trace :=
  match api.get_project resp tr with
  | (.error e, tr1) => (.error e, tr1)
  | (.ok project, tr1) =>
    match project.dock with
    | some dock =>
      match dock.find? (fun item => item.name == some "todoset") with
      | some item => (.ok item.id, tr1)
      | none => (.error (.valueError "No todoset found for this project"), tr1)
    | none => (.error (.valueError "No todoset found for this project"), tr1)

/-- `BasecampAPI.get_campfire` (bc4.py lines 187-196): same dock scan for
an entry named `"chat"`. -/
def BasecampAPI.get_campfire (api : BasecampAPI) (resp : Except Nat Project)
    (tr : Trace) : Except PyError (Option Int) × Trace :=
  match api.get_project resp tr with
  | (.error e, tr1) => (.error e, tr1)
  | (.ok project, tr1) =>
    match project.dock with
    | some dock =>
      match dock.find? (fun item => item.name == some "chat") with
      | some item => (.ok item.id, tr1)
      | none => (.error (.valueError "No campfire found for this project"), tr1)
    | none => (.error (.valueError "No campfire found for this project"), tr1)

/-- The continuation test of `BasecampAPI.get_projects` (bc4.py line 99):
the literal `rel="next"` occurring in the `Link` header. -/
def hasNextRel (link_header : String) : Bool :=
  containsSubstr link_header "rel=\"next\""

/-- The `while True` loop of `BasecampAPI.get_projects` (bc4.py lines
82-104).  `pages` maps a page number to that page's response;
`all_projects` is the accumulator; the 0.2 s rate-limit pause has no
observable effect here and is not modelled.  The `fuel` bound is an
artifact of the embedding (the Python loop is unbounded); `none` means the
fuel ran out before the loop stopped. -/
def BasecampAPI.get_projects_loop (api : BasecampAPI)
    (pages : Nat → Except Nat (PageResponse α)) (get_all : Bool) :
    Nat → Nat → List α → Trace → Option (Except PyError (List α) × Trace)
  | 0, _, _, _ => none
  | fuel + 1, page, all_projects, tr =>
    match api.headers with
    | .error e => some (.error e, tr)
    | .ok _ =>
      let tr1 : Trace := { tr with requests := tr.requests + 1 }
      match pages page with
      | .error s => some (.error (.httpError s), tr1)
      | .ok resp =>
        if resp.body.isEmpty then
          some (.ok all_projects, tr1)
        else
          let all1 := all_projects ++ resp.body
          if !get_all then
            some (.ok all1, tr1)
          else if !hasNextRel resp.link then
            some (.ok all1, tr1)
          else
            api.get_projects_loop pages get_all fuel (page + 1) all1 tr1

/-- `BasecampAPI.get_projects` (bc4.py lines 77-106): start at page 1 with
an empty accumulator. -/
def BasecampAPI.get_projects (api : BasecampAPI)
    (pages : Nat → Except Nat (PageResponse α)) (get_all : Bool) (fuel : Nat)
    (tr : Trace) : Option (Except PyError (List α) × Trace) :=
  api.get_projects_loop pages get_all fuel 1 [] tr

/-- Modelled from the spec (§4.3, refinement reference for the pagination
claim): with `page_all = true`, request successive pages while the
response's `Link`-style header carries `rel="next"`, stop on the first
response lacking it or on the first empty page, and concatenate the records
in request order.  Returns the record sequence and the number of requests
made; `none` = fuel ran out. -/
def spec_get_collection (pages : Nat → PageResponse α) :
    Nat → Nat → Option (List α × Nat)
  | 0, _ => none
  | fuel + 1, page =>
    let r := pages page
    if r.body.isEmpty then
      some ([], 1)
    else if hasNextRel r.link then
      match spec_get_collection pages fuel (page + 1) with
      | none => none
      | some (rest, n) => some (r.body ++ rest, n + 1)
    else
      some (r.body, 1)

/-! ## Theorems -/

/-- C1: `get_valid_token` treats a stored credential as stale exactly when
`remaining = expires_in - (now - obtained_at) < 300`.  When
`remaining >= 300` it returns the stored credential unchanged with no
network request and no persistence; when `remaining < 300` and a refresh
token is present (and the exchange succeeds) it issues exactly one refresh
request and persists exactly one new credential, stamped with
`obtained_at = now`. -/
theorem get_valid_token_staleness (now : Int) (td : TokenData)
    (resp : Except Nat TokenData) (tr : Trace) :
    (300 ≤ td.expires_in.getD 7200 - (now - td.obtained_at.getD 0) →
      get_valid_token now (some td) resp tr = (some td, tr))
    ∧ (td.expires_in.getD 7200 - (now - td.obtained_at.getD 0) < 300 →
      ∀ rt newResp, td.refresh_token = some rt → resp = Except.ok newResp →
        ∃ ntd, get_valid_token now (some td) resp tr
            = (some ntd, { requests := tr.requests + 1, saved := tr.saved ++ [ntd] })
          ∧ ntd.obtained_at = some now) := by
  constructor
  · intro h
    have hs : is_stale now td = false := by
      unfold is_stale
      rw [decide_eq_false_iff_not]
      omega
    simp [get_valid_token, hs]
  · intro h rt newResp hrt hresp
    have hs : is_stale now td = true := by
      unfold is_stale
      rw [decide_eq_true_eq]
      omega
    subst hresp
    cases hrr : newResp.refresh_token with
    | none =>
      exact ⟨{ newResp with obtained_at := some now, refresh_token := some rt },
        by simp [get_valid_token, hs, refresh_token, hrt, hrr], rfl⟩
    | some rv =>
      exact ⟨{ newResp with obtained_at := some now },
        by simp [get_valid_token, hs, refresh_token, hrt, hrr], rfl⟩

/-- C1 witness: a credential with `remaining = 7100 >= 300` is returned
unchanged, with no request and no persistence. -/
theorem get_valid_token_staleness_witness :
    get_valid_token 1000
        (some { access_token := some "a", refresh_token := some "r",
                obtained_at := some 900, expires_in := some 7200 })
        (Except.error 500) { requests := 0, saved := [] }
      = (some { access_token := some "a", refresh_token := some "r",
                obtained_at := some 900, expires_in := some 7200 },
         { requests := 0, saved := [] }) :=
  (get_valid_token_staleness 1000
    { access_token := some "a", refresh_token := some "r",
      obtained_at := some 900, expires_in := some 7200 }
    (Except.error 500) { requests := 0, saved := [] }).1 (by decide)

/-- C3: when the refresh exchange succeeds but the response omits
`refresh_token`, the prior refresh token is carried into the returned and
persisted credential; every other field of the result comes from the new
response, apart from the freshly stamped `obtained_at`. -/
theorem refresh_preserves_refresh_token (now : Int) (td newResp : TokenData)
    (tr : Trace) (rt : String)
    (h1 : td.refresh_token = some rt) (h2 : newResp.refresh_token = none) :
    refresh_token now (Except.ok newResp) td tr
      = (Except.ok { newResp with obtained_at := some now, refresh_token := some rt },
         { requests := tr.requests + 1,
           saved := tr.saved
             ++ [{ newResp with obtained_at := some now, refresh_token := some rt }] }) := by
  simp [refresh_token, h1, h2]

/-- C3 witness: a concrete refresh response without a `refresh_token` field
keeps the prior token `"KEEP"` while taking every other field from the
response. -/
theorem refresh_preserves_refresh_token_witness :
    refresh_token 500
        (Except.ok { access_token := some "new", refresh_token := none,
                     obtained_at := some 999, expires_in := some 3600 })
        { access_token := some "old", refresh_token := some "KEEP",
          obtained_at := some 0, expires_in := some 7200 }
        { requests := 3, saved := [] }
      = (Except.ok { access_token := some "new", refresh_token := some "KEEP",
                     obtained_at := some 500, expires_in := some 3600 },
         { requests := 4,
           saved := [{ access_token := some "new", refresh_token := some "KEEP",
                       obtained_at := some 500, expires_in := some 3600 }] }) :=
  refresh_preserves_refresh_token 500
    { access_token := some "old", refresh_token := some "KEEP",
      obtained_at := some 0, expires_in := some 7200 }
    { access_token := some "new", refresh_token := none,
      obtained_at := some 999, expires_in := some 3600 }
    { requests := 3, saved := [] } "KEEP" rfl rfl

/-- C4: for a stale stored credential, if the refresh attempt fails —
because the refresh token is missing or because the token-endpoint exchange
raises — `get_valid_token` returns `none` ("no credential") instead of
propagating the error. -/
theorem get_valid_token_swallows_refresh_failure (now : Int) (td : TokenData)
    (resp : Except Nat TokenData) (tr : Trace)
    (hstale : td.expires_in.getD 7200 - (now - td.obtained_at.getD 0) < 300)
    (hfail : td.refresh_token = none ∨ ∃ s, resp = Except.error s) :
    (get_valid_token now (some td) resp tr).1 = none := by
  have hs : is_stale now td = true := by
    unfold is_stale
    rw [decide_eq_true_eq]
    omega
  rcases hfail with h | ⟨s, h⟩
  · simp [get_valid_token, hs, refresh_token, h]
  · subst h
    cases htd : td.refresh_token <;> simp [get_valid_token, hs, refresh_token, htd]

/-- C4 witness: a long-expired credential with no refresh token yields
`none` rather than an error. -/
theorem get_valid_token_swallows_refresh_failure_witness :
    (get_valid_token 10000
        (some { access_token := some "a", refresh_token := none,
                obtained_at := some 0, expires_in := some 7200 })
        (Except.error 500) { requests := 0, saved := [] }).1 = none :=
  get_valid_token_swallows_refresh_failure 10000
    { access_token := some "a", refresh_token := none,
      obtained_at := some 0, expires_in := some 7200 }
    (Except.error 500) { requests := 0, saved := [] } (by decide) (Or.inl rfl)

/-- C8: every credential returned and persisted by a successful `login` or
`refresh_token` has `obtained_at = now`, the local time at which the
response was received — even when the server's response body itself carries
an `obtained_at` value (`resp` is arbitrary here, so in particular it may
contain one; it is overwritten, never trusted). -/
theorem obtained_at_stamped_locally (now : Int) (code : String)
    (resp td : TokenData) (tr : Trace)
    (hcode : ¬ extract_auth_code (stripStr code) = "")
    (hrt : td.refresh_token.isSome = true) :
    ((login now code (Except.ok resp) tr).1.map TokenData.obtained_at
        = Except.ok (some now)
      ∧ (login now code (Except.ok resp) tr).2.saved.map TokenData.obtained_at
        = tr.saved.map TokenData.obtained_at ++ [some now])
    ∧ ((refresh_token now (Except.ok resp) td tr).1.map TokenData.obtained_at
        = Except.ok (some now)
      ∧ (refresh_token now (Except.ok resp) td tr).2.saved.map TokenData.obtained_at
        = tr.saved.map TokenData.obtained_at ++ [some now]) := by
  rw [Option.isSome_iff_exists] at hrt
  obtain ⟨rt, hrt⟩ := hrt
  refine ⟨⟨?_, ?_⟩, ?_, ?_⟩
  · simp [login, hcode, Except.map]
  · simp [login, hcode]
  · cases hrr : resp.refresh_token <;> simp [refresh_token, hrt, hrr, Except.map]
  · cases hrr : resp.refresh_token <;> simp [refresh_token, hrt, hrr]

/-- C8 witness: a token response claiming `obtained_at = 999` is persisted
with the locally stamped `obtained_at = 42` by both flows. -/
theorem obtained_at_stamped_locally_witness :
    ((login 42 "http://localhost?code=ABC123&state=xyz"
        (Except.ok { access_token := some "new", refresh_token := some "r2",
                     obtained_at := some 999, expires_in := some 3600 })
        { requests := 0, saved := [] }).1.map TokenData.obtained_at
        = Except.ok (some 42)
      ∧ (login 42 "http://localhost?code=ABC123&state=xyz"
        (Except.ok { access_token := some "new", refresh_token := some "r2",
                     obtained_at := some 999, expires_in := some 3600 })
        { requests := 0, saved := [] }).2.saved.map TokenData.obtained_at
        = [some 42])
    ∧ ((refresh_token 42
        (Except.ok { access_token := some "new", refresh_token := some "r2",
                     obtained_at := some 999, expires_in := some 3600 })
        { access_token := some "old", refresh_token := some "r1",
          obtained_at := some 0, expires_in := some 7200 }
        { requests := 0, saved := [] }).1.map TokenData.obtained_at
        = Except.ok (some 42)
      ∧ (refresh_token 42
        (Except.ok { access_token := some "new", refresh_token := some "r2",
                     obtained_at := some 999, expires_in := some 3600 })
        { access_token := some "old", refresh_token := some "r1",
          obtained_at := some 0, expires_in := some 7200 }
        { requests := 0, saved := [] }).2.saved.map TokenData.obtained_at
        = [some 42]) :=
  obtained_at_stamped_locally 42 "http://localhost?code=ABC123&state=xyz"
    { access_token := some "new", refresh_token := some "r2",
      obtained_at := some 999, expires_in := some 3600 }
    { access_token := some "old", refresh_token := some "r1",
      obtained_at := some 0, expires_in := some 7200 }
    { requests := 0, saved := [] } (by decide) (by decide)

/-- C10: `get_valid_token`'s staleness test substitutes defaults for
missing expiry bookkeeping: a missing `obtained_at` is read as unix time 0
and a missing `expires_in` as 7200 seconds, with no error in either case
(`is_stale` and `get_valid_token` are total).  With `obtained_at` missing,
the credential is considered stale at every time past
`expires_in - 300` — i.e. always, for any realistic clock. -/
theorem missing_field_defaults (now : Int) (td : TokenData) :
    (td.obtained_at = none →
      is_stale now td = decide (td.expires_in.getD 7200 - 300 < now))
    ∧ (td.expires_in = none →
      is_stale now td = decide (7200 - 300 < now - td.obtained_at.getD 0))
    ∧ (td.obtained_at = none → td.expires_in.getD 7200 - 300 < now →
      is_stale now td = true) := by
  refine ⟨?_, ?_, ?_⟩
  · intro h
    unfold is_stale
    rw [h]
    simp only [Option.getD_none]
    rw [decide_eq_decide]
    omega
  · intro h
    unfold is_stale
    rw [h]
    simp only [Option.getD_none]
  · intro h hlt
    unfold is_stale
    rw [h]
    simp only [Option.getD_none]
    rw [decide_eq_true_eq]
    omega

/-- C10 witness: a credential record with both bookkeeping fields missing
is stale at time 10000 (> 7200 - 300). -/
theorem missing_field_defaults_witness :
    is_stale 10000
      { access_token := some "a", refresh_token := none,
        obtained_at := none, expires_in := none } = true :=
  (missing_field_defaults 10000
    { access_token := some "a", refresh_token := none,
      obtained_at := none, expires_in := none }).2.2 rfl (by decide)

/-- C5 counterexample: the claim quantifies over every pasted full redirect
URL, but a redirect URL whose `code` query parameter is not the first
parameter contains no literal `"?code="`, so `login`'s extraction returns
the entire input verbatim instead of the value `ABC123` of the `code`
parameter. -/
theorem extract_code_counterexample :
    extract_auth_code "http://localhost?state=xyz&code=ABC123"
        = "http://localhost?state=xyz&code=ABC123"
    ∧ ¬ extract_auth_code "http://localhost?state=xyz&code=ABC123" = "ABC123" :=
  ⟨by decide, by decide⟩

/-- C5 amended: extraction happens only when the pasted input literally
contains `"?code="`; otherwise the input is used verbatim as the code.
When the marker is present, the code is the first `"?code="`-delimited
segment truncated at the first `"&"`; on the spec's scenario input
`http://localhost?code=ABC123&state=xyz` this yields `ABC123`. -/
theorem extract_code_amended :
    (∀ s : String, containsSubstr s qcodeMarker = false → extract_auth_code s = s)
    ∧ extract_auth_code "http://localhost?code=ABC123&state=xyz" = "ABC123"
    ∧ extract_auth_code "?code=ABC123" = "ABC123" := by
  refine ⟨?_, by decide, by decide⟩
  intro s h
  simp [extract_auth_code, h]

/-- C5 witness: a bare pasted code contains no `"?code="` marker and is
used verbatim. -/
theorem extract_code_amended_witness :
    containsSubstr "rawcode123" qcodeMarker = false
    ∧ extract_auth_code "rawcode123" = "rawcode123" :=
  ⟨by decide, extract_code_amended.1 "rawcode123" (by decide)⟩

/-- C6: `get_todoset` and `get_campfire` fetch the parent project fresh on
every call (each call issues exactly one further request, whatever came
before), scan its dock for the first entry named `"todoset"` resp. `"chat"`
and return its id, and raise the distinguished not-found `ValueError` when
no entry matches — including when the project has no dock at all (then
`p.dock.getD [] = []` and the hypotheses hold vacuously). -/
theorem dock_scan_not_found (api : BasecampAPI) (hd : Headers)
    (hh : api.headers = Except.ok hd) (p : Project) (tr : Trace) :
    ((api.get_todoset (Except.ok p) tr).2 = { tr with requests := tr.requests + 1 })
    ∧ ((api.get_campfire (Except.ok p) tr).2 = { tr with requests := tr.requests + 1 })
    ∧ (∀ item, (p.dock.getD []).find? (fun i => i.name == some "todoset") = some item →
        (api.get_todoset (Except.ok p) tr).1 = Except.ok item.id)
    ∧ ((∀ item ∈ p.dock.getD [], ¬ item.name = some "todoset") →
        (api.get_todoset (Except.ok p) tr).1
          = Except.error (.valueError "No todoset found for this project"))
    ∧ ((∀ item ∈ p.dock.getD [], ¬ item.name = some "chat") →
        (api.get_campfire (Except.ok p) tr).1
          = Except.error (.valueError "No campfire found for this project")) := by
  cases p with
  | mk dock =>
    cases dock with
    | none =>
      refine ⟨?_, ?_, ?_, ?_, ?_⟩ <;>
        simp [BasecampAPI.get_todoset, BasecampAPI.get_campfire,
          BasecampAPI.get_project, hh]
    | some d =>
      refine ⟨?_, ?_, ?_, ?_, ?_⟩
      · cases hf : d.find? (fun i => i.name == some "todoset") <;>
          simp [BasecampAPI.get_todoset, BasecampAPI.get_project, hh, hf]
      · cases hf : d.find? (fun i => i.name == some "chat") <;>
          simp [BasecampAPI.get_campfire, BasecampAPI.get_project, hh, hf]
      · intro item hf
        simp only [Option.getD_some] at hf
        simp [BasecampAPI.get_todoset, BasecampAPI.get_project, hh, hf]
      · intro hnone
        have hf : d.find? (fun i => i.name == some "todoset") = none := by
          rw [List.find?_eq_none]
          intro x hx
          simp only [beq_iff_eq]
          exact hnone x (by simpa using hx)
        simp [BasecampAPI.get_todoset, BasecampAPI.get_project, hh, hf]
      · intro hnone
        have hf : d.find? (fun i => i.name == some "chat") = none := by
          rw [List.find?_eq_none]
          intro x hx
          simp only [beq_iff_eq]
          exact hnone x (by simpa using hx)
        simp [BasecampAPI.get_campfire, BasecampAPI.get_project, hh, hf]

/-- C6 witness: a project whose dock holds only a `"todoset"` entry makes
`get_campfire` raise the campfire not-found error. -/
theorem dock_scan_not_found_witness :
    (BasecampAPI.get_campfire
        (BasecampAPI.mk (some { access_token := some "tok", refresh_token := none,
                                obtained_at := none, expires_in := none }))
        (Except.ok { dock := some [{ name := some "todoset", id := some 5 }] })
        { requests := 0, saved := [] }).1
      = Except.error (.valueError "No campfire found for this project") :=
  (dock_scan_not_found
    (BasecampAPI.mk (some { access_token := some "tok", refresh_token := none,
                            obtained_at := none, expires_in := none }))
    { authorization := "Bearer tok", contentType := "application/json",
      userAgent := "Basecamp4 CLI Tool" } rfl
    { dock := some [{ name := some "todoset", id := some 5 }] }
    { requests := 0, saved := [] }).2.2.2.2 (by decide)

/-- C7: with `get_all = false`, `get_projects` issues exactly one HTTP
request — whatever continuation header the response carries — and returns
exactly the first page's records. -/
theorem get_projects_single_page {α : Type} (api : BasecampAPI) (hd : Headers)
    (hh : api.headers = Except.ok hd) (pages : Nat → Except Nat (PageResponse α))
    (r : PageResponse α) (h1 : pages 1 = Except.ok r) (fuel : Nat) (tr : Trace) :
    api.get_projects pages false (fuel + 1) tr
      = some (Except.ok r.body, { tr with requests := tr.requests + 1 }) := by
  obtain ⟨body, link⟩ := r
  cases body with
  | nil => simp [BasecampAPI.get_projects, BasecampAPI.get_projects_loop, hh, h1]
  | cons a as => simp [BasecampAPI.get_projects, BasecampAPI.get_projects_loop, hh, h1]

/-- C7 witness: a page whose `Link` header advertises `rel="next"` still
yields a single request and only its own records when `get_all = false`. -/
theorem get_projects_single_page_witness :
    BasecampAPI.get_projects
        (BasecampAPI.mk (some { access_token := some "tok", refresh_token := none,
                                obtained_at := none, expires_in := none }))
        (fun _ => Except.ok { body := [7, 8], link := "<https://api>; rel=\"next\"" })
        false 5 { requests := 0, saved := [] }
      = some (Except.ok [7, 8], { requests := 1, saved := [] }) :=
  get_projects_single_page
    (BasecampAPI.mk (some { access_token := some "tok", refresh_token := none,
                            obtained_at := none, expires_in := none }))
    { authorization := "Bearer tok", contentType := "application/json",
      userAgent := "Basecamp4 CLI Tool" } rfl
    (fun _ => Except.ok { body := [7, 8], link := "<https://api>; rel=\"next\"" })
    { body := [7, 8], link := "<https://api>; rel=\"next\"" } rfl 4
    { requests := 0, saved := [] }

/-- C9: constructing the client with an absent credential succeeds (the
constructor stores `none`); the `ValueError` "No authentication token
available" is raised lazily when the `headers` property is built, so every
embedded API operation on such a client fails with exactly that error with
the trace unchanged — i.e. before any HTTP request is issued. -/
theorem construction_lazy_auth_check {α : Type} (resp : Except Nat Project)
    (pages : Nat → Except Nat (PageResponse α)) (get_all : Bool) (fuel : Nat)
    (tr : Trace) :
    (BasecampAPI.mk none).token_data = none
    ∧ (BasecampAPI.mk none).headers
        = Except.error (.valueError "No authentication token available")
    ∧ (BasecampAPI.mk none).get_project resp tr
        = (Except.error (.valueError "No authentication token available"), tr)
    ∧ (BasecampAPI.mk none).get_todoset resp tr
        = (Except.error (.valueError "No authentication token available"), tr)
    ∧ (BasecampAPI.mk none).get_campfire resp tr
        = (Except.error (.valueError "No authentication token available"), tr)
    ∧ (BasecampAPI.mk none).get_projects pages get_all (fuel + 1) tr
        = some (Except.error (.valueError "No authentication token available"), tr) := by
  refine ⟨rfl, rfl, rfl, rfl, rfl, ?_⟩
  simp [BasecampAPI.get_projects, BasecampAPI.get_projects_loop,
    BasecampAPI.headers]

/-- Helper for the pagination refinement: the `get_projects` loop with
`get_all = true` agrees with the spec-side collector for every fuel, page
number, accumulator and starting trace. -/
theorem get_projects_loop_spec {α : Type} (api : BasecampAPI) (hd : Headers)
    (hh : api.headers = Except.ok hd) (pages : Nat → PageResponse α) :
    ∀ (fuel page : Nat) (acc : List α) (tr : Trace),
      api.get_projects_loop (fun p => Except.ok (pages p)) true fuel page acc tr
        = (spec_get_collection pages fuel page).map
            (fun pr => (Except.ok (acc ++ pr.1),
              { requests := tr.requests + pr.2, saved := tr.saved })) := by
  intro fuel
  induction fuel with
  | zero =>
    intro page acc tr
    rfl
  | succ fuel ih =>
    intro page acc tr
    simp only [BasecampAPI.get_projects_loop, spec_get_collection, hh]
    by_cases hb : (pages page).body.isEmpty
    · simp [hb]
    · simp only [hb, Bool.not_true, Bool.false_eq_true, if_false, if_true,
        Bool.not_false, ite_false]
      by_cases hn : hasNextRel (pages page).link
      · simp only [hn, Bool.not_true, Bool.false_eq_true, if_false, ite_false]
        rw [ih (page + 1) (acc ++ (pages page).body)
          { tr with requests := tr.requests + 1 }]
        cases hsc : spec_get_collection pages fuel (page + 1) with
        | none => simp
        | some pr =>
          obtain ⟨rest, n⟩ := pr
          simp only [Option.map_some]
          simp [List.append_assoc]
          omega
      · simp [hn]

/-- C2: with `get_all = true`, `get_projects` requests successive pages
while the `Link`-style header carries `rel="next"`, stops on the first
response lacking it or on the first empty page, and returns the
concatenation of all records in request order — it coincides with
`spec_get_collection`, the collector written from the spec's words, both in
the record sequence and in the number of requests issued. -/
theorem get_projects_page_all {α : Type} (api : BasecampAPI) (hd : Headers)
    (hh : api.headers = Except.ok hd) (pages : Nat → PageResponse α)
    (fuel : Nat) (tr : Trace) :
    api.get_projects (fun p => Except.ok (pages p)) true fuel tr
      = (spec_get_collection pages fuel 1).map
          (fun pr => (Except.ok pr.1,
            { requests := tr.requests + pr.2, saved := tr.saved })) := by
  have h := get_projects_loop_spec api hd hh pages fuel 1 [] tr
  simpa [BasecampAPI.get_projects] using h

/-- C2 witness: the spec's scenario — page 1 is `[1, 2]` with a
`rel="next"` header, page 2 is empty — yields the sequence `[1, 2]` with
exactly two requests, matching the spec-side collector. -/
theorem get_projects_page_all_witness :
    BasecampAPI.get_projects
        (BasecampAPI.mk (some { access_token := some "tok", refresh_token := none,
                                obtained_at := none, expires_in := none }))
        (fun p => Except.ok (if p = 1
          then { body := [1, 2], link := "<https://api>; rel=\"next\"" }
          else { body := ([] : List Nat), link := "" }))
        true 10 { requests := 0, saved := [] }
      = some (Except.ok [1, 2], { requests := 2, saved := [] }) := by
  rw [get_projects_page_all
    (BasecampAPI.mk (some { access_token := some "tok", refresh_token := none,
                            obtained_at := none, expires_in := none }))
    { authorization := "Bearer tok", contentType := "application/json",
      userAgent := "Basecamp4 CLI Tool" } rfl
    (fun p => if p = 1
      then { body := [1, 2], link := "<https://api>; rel=\"next\"" }
      else { body := ([] : List Nat), link := "" })
    10 { requests := 0, saved := [] }]
  rfl

end BC4
